import Mathlib

/- Verification of the fitness-diet RAG planner core against its spec.

   Shallow embedding conventions:
   * Python floats are embedded as exact rationals (ℚ).
   * Python `int(x)` truncates toward zero; we model it with `ratTrunc`.
   * Python `round(x)` rounds half to even; we model it with `pyRound`.
   * Python dictionaries with optional keys become `Option` fields; Python
     truthiness of an optional string (None and the empty string are falsy)
     is `optTruthy`.
   * Code that raises is embedded as an `Option`-returning function, `none`
     standing for a raised exception. -/

namespace FitnessPlanner

/-- Truncation toward zero, the behaviour of Python `int()` on a float. -/
def ratTrunc (q : ℚ) : ℤ :=
  if 0 ≤ q then ⌊q⌋ else ⌈q⌉

/-- Parity test on integers, used by banker's rounding. -/
def evenInt (n : ℤ) : Bool :=
  n % 2 == 0

/-- Python `round(x)`: round half to even (banker's rounding). -/
def pyRound (q : ℚ) : ℤ :=
  let f := ⌊q⌋
  let r := q - (f : ℚ)
  if r < 1/2 then f
  else if 1/2 < r then f + 1
  else if evenInt f then f else f + 1

/-- Python `round(x, 1)`: banker's rounding at one decimal place. -/
def pyRound1 (q : ℚ) : ℚ :=
  (pyRound (q * 10) : ℚ) / 10

/-- Truthiness of an optional string: Python treats None and "" as falsy. -/
def optTruthy (o : Option String) : Bool :=
  match o with
  | some s => !s.isEmpty
  | none => false

/-- backend/models/user.py: FitnessGoal enum. -/
inductive FitnessGoal where
  | lean
  | muscle_gain
  | fat_loss
deriving DecidableEq, Repr

/-- Python `FitnessGoal(s)` constructor; `none` models the ValueError. -/
def FitnessGoal.ofString (s : String) : Option FitnessGoal :=
  if s = "lean" then some .lean
  else if s = "muscle_gain" then some .muscle_gain
  else if s = "fat_loss" then some .fat_loss
  else none

/-- backend/models/user.py: ActivityLevel enum. -/
inductive ActivityLevel where
  | sedentary
  | lightly_active
  | moderately_active
  | very_active
  | extremely_active
deriving DecidableEq, Repr

/-- Python `ActivityLevel(s)` constructor; `none` models the ValueError. -/
def ActivityLevel.ofString (s : String) : Option ActivityLevel :=
  if s = "sedentary" then some .sedentary
  else if s = "lightly_active" then some .lightly_active
  else if s = "moderately_active" then some .moderately_active
  else if s = "very_active" then some .very_active
  else if s = "extremely_active" then some .extremely_active
  else none

/-- A validated user profile, as the dictionaries flowing through the core.
    Numeric fields are assumed present (the boundary layer validates them);
    free-text and enum-string fields keep Python's optional/string shape. -/
structure Profile where
  name : Option String := none
  age : ℤ
  gender : String
  height_cm : ℚ
  weight_kg : ℚ
  fitness_goal : String
  activity_level : String
  dietary_preference : Option String := none
  experience_level : Option String := none
  workout_location : Option String := none
  workout_days_per_week : ℤ := 3
  medical_conditions : Option String := none
  allergies : Option String := none
deriving DecidableEq, Repr

namespace CalorieCalculator

/-- ACTIVITY_MULTIPLIERS table from calorie_service.py. -/
def activityMultiplier : ActivityLevel → ℚ
  | .sedentary => 1.2
  | .lightly_active => 1.375
  | .moderately_active => 1.55
  | .very_active => 1.725
  | .extremely_active => 1.9

/-- GOAL_ADJUSTMENTS table from calorie_service.py. -/
def goalAdjustment : FitnessGoal → ℤ
  | .lean => -300
  | .muscle_gain => 300
  | .fat_loss => -500

/-- A protein/carbs/fats fraction triple. -/
structure MacroRatio where
  protein : ℚ
  carbs : ℚ
  fats : ℚ
deriving DecidableEq, Repr

/-- MACRO_RATIOS table from calorie_service.py. -/
def macroRatios : FitnessGoal → MacroRatio
  | .lean => ⟨0.30, 0.40, 0.30⟩
  | .muscle_gain => ⟨0.30, 0.45, 0.25⟩
  | .fat_loss => ⟨0.35, 0.30, 0.35⟩

/-- CalorieCalculator.calculate_bmi. -/
def calculate_bmi (weight_kg height_cm : ℚ) : ℚ :=
  let height_m := height_cm / 100
  weight_kg / (height_m ^ 2)

/-- CalorieCalculator.get_bmi_category. -/
def get_bmi_category (bmi : ℚ) : String :=
  if bmi < 18.5 then "Underweight"
  else if bmi < 25 then "Normal"
  else if bmi < 30 then "Overweight"
  else "Obese"

/-- CalorieCalculator.calculate_bmr (Mifflin-St Jeor), rounded to an
    integer value as Python `round(bmr, 0)` does. -/
def calculate_bmr (weight_kg height_cm : ℚ) (age : ℤ) (gender : String) : ℚ :=
  let bmr : ℚ :=
    if gender.toLower = "male" then
      10 * weight_kg + 6.25 * height_cm - 5 * age + 5
    else
      10 * weight_kg + 6.25 * height_cm - 5 * age - 161
  (pyRound bmr : ℚ)

/-- CalorieCalculator.calculate_tdee: the multiplier defaults to 1.55 when
    the activity string is not a valid ActivityLevel. -/
def calculate_tdee (bmr : ℚ) (activity_level : String) : ℚ :=
  let multiplier : ℚ :=
    match ActivityLevel.ofString activity_level with
    | some a => activityMultiplier a
    | none => 1.55
  (pyRound (bmr * multiplier) : ℚ)

/-- CalorieCalculator.calculate_daily_calories: goal adjustment (0 for an
    unknown goal), then the 1200 kcal safety floor. -/
def calculate_daily_calories (tdee : ℚ) (fitness_goal : String) : ℤ :=
  let adjustment : ℤ :=
    match FitnessGoal.ofString fitness_goal with
    | some g => goalAdjustment g
    | none => 0
  let calories := tdee + (adjustment : ℚ)
  max (ratTrunc calories) 1200

/-- Macro gram targets. -/
structure Macros where
  protein_g : ℤ
  carbs_g : ℤ
  fats_g : ℤ
deriving DecidableEq, Repr

/-- CalorieCalculator.calculate_macros: an unknown goal gets the lean
    ratio set; grams are `int()` of calories over kcal-per-gram. -/
def calculate_macros (daily_calories : ℤ) (fitness_goal : String) : Macros :=
  let ratios :=
    match FitnessGoal.ofString fitness_goal with
    | some g => macroRatios g
    | none => macroRatios .lean
  let protein_cals : ℚ := (daily_calories : ℚ) * ratios.protein
  let carbs_cals : ℚ := (daily_calories : ℚ) * ratios.carbs
  let fats_cals : ℚ := (daily_calories : ℚ) * ratios.fats
  { protein_g := ratTrunc (protein_cals / 4)
    carbs_g := ratTrunc (carbs_cals / 4)
    fats_g := ratTrunc (fats_cals / 9) }

/-- The dictionary returned by CalorieCalculator.calculate_all. -/
structure AllStats where
  bmi : ℚ
  bmi_category : String
  bmr : ℤ
  tdee : ℤ
  daily_calories : ℤ
  protein_g : ℤ
  carbs_g : ℤ
  fats_g : ℤ
  ideal_weight_min : ℚ
  ideal_weight_max : ℚ
  water_ml : ℤ
  macro_pct_protein : ℤ
  macro_pct_carbs : ℤ
  macro_pct_fats : ℤ
deriving DecidableEq, Repr

/-- CalorieCalculator.calculate_all. The macro_percentages entries call
    `FitnessGoal(goal)` with no try/except, so an unknown goal string makes
    the whole call raise ValueError there, which `none` models; every other
    step of the method handles unknown enum strings with defaults. -/
def calculate_all (p : Profile) : Option AllStats :=
  let bmi := calculate_bmi p.weight_kg p.height_cm
  let bmi_category := get_bmi_category bmi
  let bmr := calculate_bmr p.weight_kg p.height_cm p.age p.gender
  let tdee := calculate_tdee bmr p.activity_level
  let daily_calories := calculate_daily_calories tdee p.fitness_goal
  let macros := calculate_macros daily_calories p.fitness_goal
  let height_m := p.height_cm / 100
  let ideal_weight_min := pyRound1 (18.5 * height_m ^ 2)
  let ideal_weight_max := pyRound1 (24.9 * height_m ^ 2)
  let water_ml := ratTrunc (p.weight_kg * 35)
  match FitnessGoal.ofString p.fitness_goal with
  | none => none
  | some g =>
      some
        { bmi := pyRound1 bmi
          bmi_category := bmi_category
          bmr := ratTrunc bmr
          tdee := ratTrunc tdee
          daily_calories := daily_calories
          protein_g := macros.protein_g
          carbs_g := macros.carbs_g
          fats_g := macros.fats_g
          ideal_weight_min := ideal_weight_min
          ideal_weight_max := ideal_weight_max
          water_ml := water_ml
          macro_pct_protein := ratTrunc ((macroRatios g).protein * 100)
          macro_pct_carbs := ratTrunc ((macroRatios g).carbs * 100)
          macro_pct_fats := ratTrunc ((macroRatios g).fats * 100) }

end CalorieCalculator

/-- A metadata value: Pinecone metadata holds strings and numbers, and the
    converted documents also carry Python None (for a missing id/score). -/
inductive MVal where
  | s : String → MVal
  | q : ℚ → MVal
  | null : MVal
deriving DecidableEq, Repr

/-- First-match association-list lookup, modelling Python dict access on
    the metadata dictionaries (keys are unique in every dict we build). -/
def dictGet (d : List (String × MVal)) (k : String) : Option MVal :=
  match d.find? (fun e => e.1 = k) with
  | some e => some e.2
  | none => none

/-- A LangChain Document: page content plus a metadata dictionary. -/
structure Document where
  page_content : String
  metadata : List (String × MVal)
deriving DecidableEq, Repr

/-- One match returned by PineconeManager.query: the dictionaries carry
    optional id/score/text plus a metadata dictionary. -/
structure QueryResult where
  id : Option String := none
  score : Option ℚ := none
  text : Option String := none
  metadata : List (String × MVal) := []
deriving DecidableEq, Repr

/-- A metadata filter: each entry k ↦ v stands for the Pinecone exact-match
    clause mapping k to an eq-constraint on v. -/
abbrev Filter := List (String × String)

/-- The external gateways the retriever talks to: availability flags of the
    Pinecone manager and the embedding manager, and the vector query
    function (query text, top_k, namespace, optional filter) of the
    Pinecone manager. -/
structure Gateway where
  pineconeAvailable : Bool
  embeddingAvailable : Bool
  query : String → ℕ → String → Option Filter → List QueryResult

namespace FitnessRetriever

/-- FitnessRetriever.is_available: both gateways must report available. -/
def is_available (gw : Gateway) : Bool :=
  gw.pineconeAvailable && gw.embeddingAvailable

/-- FitnessRetriever._build_workout_filter: exact-match on
    experience_level when truthy, and on workout_location when truthy and
    different from "both"; an empty filter becomes None. -/
def build_workout_filter (p : Profile) : Option Filter :=
  let f1 : List (String × String) :=
    match p.experience_level with
    | some s => if !s.isEmpty then [("experience_level", s)] else []
    | none => []
  let f2 : List (String × String) :=
    match p.workout_location with
    | some location =>
        if !location.isEmpty && location ≠ "both" then
          [("location", location)]
        else []
    | none => []
  let filters := f1 ++ f2
  if filters.isEmpty then none else some filters

/-- FitnessRetriever._build_diet_filter: exact-match on dietary_type when
    the profile's dietary_preference is truthy; empty becomes None. -/
def build_diet_filter (p : Profile) : Option Filter :=
  let filters : List (String × String) :=
    match p.dietary_preference with
    | some s => if !s.isEmpty then [("dietary_type", s)] else []
    | none => []
  if filters.isEmpty then none else some filters

/-- The two context types of FitnessRetriever._enhance_query. -/
inductive ContextType where
  | workout
  | diet
deriving DecidableEq, Repr

/-- FitnessRetriever._enhance_query: append bracketed profile hints. -/
def enhance_query (query : String) (p : Profile) (ctx : ContextType) : String :=
  let enhancements : List String :=
    match ctx with
    | .workout =>
        (if !p.fitness_goal.isEmpty then ["Goal: " ++ p.fitness_goal] else []) ++
        (match p.experience_level with
         | some s => if !s.isEmpty then ["Level: " ++ s] else []
         | none => []) ++
        (match p.workout_location with
         | some s => if !s.isEmpty then ["Location: " ++ s] else []
         | none => [])
    | .diet =>
        (match p.dietary_preference with
         | some s => if !s.isEmpty then ["Preference: " ++ s] else []
         | none => []) ++
        (if !p.fitness_goal.isEmpty then ["Goal: " ++ p.fitness_goal] else [])
  if !enhancements.isEmpty then
    query ++ " [" ++ String.intercalate " | " enhancements ++ "]"
  else query

/-- FitnessRetriever._results_to_documents for one result: the metadata
    dict is id and score followed by the result's own metadata entries
    (which, being later insertions, would win on a key clash; the dicts we
    model never clash). -/
def result_to_document (r : QueryResult) : Document :=
  { page_content := r.text.getD ""
    metadata :=
      [("id", match r.id with | some i => MVal.s i | none => MVal.null),
       ("score", match r.score with | some v => MVal.q v | none => MVal.null)]
      ++ r.metadata }

/-- FitnessRetriever._results_to_documents. -/
def results_to_documents (results : List QueryResult) : List Document :=
  results.map result_to_document

/-- FitnessRetriever._get_fallback_workout_docs: one hardcoded document.
    The page content matches the source literal, without the Python
    triple-quote indentation. -/
def fallback_workout_docs : List Document :=
  [{ page_content :=
      "# General Workout Guidelines\n\n" ++
      "## Beginner Full Body Workout (3 days/week)\n" ++
      "- Squats: 3 sets x 10-12 reps\n" ++
      "- Push-ups: 3 sets x 8-12 reps\n" ++
      "- Dumbbell Rows: 3 sets x 10 reps each arm\n" ++
      "- Lunges: 3 sets x 10 reps each leg\n" ++
      "- Plank: 3 sets x 30 seconds\n\n" ++
      "## Intermediate Split (4 days/week)\n" ++
      "Day 1: Chest & Triceps\n" ++
      "Day 2: Back & Biceps\n" ++
      "Day 3: Rest\n" ++
      "Day 4: Legs\n" ++
      "Day 5: Shoulders & Core\n\n" ++
      "## Important Notes\n" ++
      "- Always warm up for 5-10 minutes\n" ++
      "- Rest 60-90 seconds between sets\n" ++
      "- Stay hydrated\n" ++
      "- Progressive overload is key\n"
     metadata :=
      [("type", MVal.s "workout"), ("source", MVal.s "fallback"),
       ("score", MVal.q 0.5)] }]

/-- FitnessRetriever._get_fallback_diet_docs: one hardcoded document. -/
def fallback_diet_docs : List Document :=
  [{ page_content :=
      "# General Diet Guidelines\n\n" ++
      "## Indian Vegetarian High Protein Foods\n" ++
      "- Paneer: 18g protein per 100g\n" ++
      "- Dal (Lentils): 9g protein per 100g\n" ++
      "- Chickpeas: 19g protein per 100g\n" ++
      "- Greek Yogurt: 10g protein per 100g\n" ++
      "- Soy chunks: 52g protein per 100g\n\n" ++
      "## Sample Meal Plan (2000 kcal)\n" ++
      "Breakfast: Paneer bhurji with 2 rotis (500 kcal)\n" ++
      "Snack: Sprouts chaat (200 kcal)\n" ++
      "Lunch: Rajma chawal with salad (600 kcal)\n" ++
      "Snack: Protein shake with banana (250 kcal)\n" ++
      "Dinner: Dal with roti and vegetables (450 kcal)\n\n" ++
      "## Macro Split for Muscle Gain\n" ++
      "- Protein: 30% (150g)\n" ++
      "- Carbs: 45% (225g)\n" ++
      "- Fats: 25% (55g)\n"
     metadata :=
      [("type", MVal.s "diet"), ("source", MVal.s "fallback"),
       ("score", MVal.q 0.5)] }]

/-- FitnessRetriever.retrieve_workout_context: fallback docs when the
    gateways are unavailable; otherwise a filtered, enhanced query whose
    converted results are returned, with the fallback docs substituted
    when the converted list is empty. -/
def retrieve_workout_context (gw : Gateway) (query : String) (p : Profile)
    (top_k : ℕ := 5) : List Document :=
  if !is_available gw then fallback_workout_docs
  else
    let filter_dict := build_workout_filter p
    let enhanced_query := enhance_query query p .workout
    let results := gw.query enhanced_query top_k "workouts" filter_dict
    let docs := results_to_documents results
    if docs.isEmpty then fallback_workout_docs else docs

/-- FitnessRetriever.retrieve_diet_context: same shape for diets. -/
def retrieve_diet_context (gw : Gateway) (query : String) (p : Profile)
    (top_k : ℕ := 5) : List Document :=
  if !is_available gw then fallback_diet_docs
  else
    let filter_dict := build_diet_filter p
    let enhanced_query := enhance_query query p .diet
    let results := gw.query enhanced_query top_k "diets" filter_dict
    let docs := results_to_documents results
    if docs.isEmpty then fallback_diet_docs else docs

/-- The dictionary returned by retrieve_combined_context. -/
structure CombinedContext where
  workouts : List Document
  diets : List Document
deriving DecidableEq, Repr

/-- FitnessRetriever.retrieve_combined_context. -/
def retrieve_combined_context (gw : Gateway) (query : String) (p : Profile)
    (top_k_each : ℕ := 3) : CombinedContext :=
  { workouts := retrieve_workout_context gw query p top_k_each
    diets := retrieve_diet_context gw query p top_k_each }

end FitnessRetriever

/-- Fixed-point decimal formatting of a rational, modelling the Python
    format specs of the chain's f-strings (for example two decimals). -/
def qToFixed (digits : ℕ) (q : ℚ) : String :=
  let m : ℤ := pyRound (q * ((10 : ℚ) ^ digits))
  let sign := if m < 0 then "-" else ""
  let n := m.natAbs
  let base := 10 ^ digits
  let ip := n / base
  let fp := n % base
  let fpStr := toString fp
  let pad := String.mk (List.replicate (digits - fpStr.length) '0')
  if digits = 0 then sign ++ toString ip
  else sign ++ toString ip ++ "." ++ pad ++ fpStr

/-- Progress data consumed by FitnessRAGChain._format_progress. -/
structure ProgressData where
  weight_history : List ℚ := []
  workout_completion : Option ℚ := none
  calorie_adherence : Option ℚ := none
deriving DecidableEq, Repr

/-- A source record of FitnessRAGChain._extract_sources. -/
structure SourceRec where
  id : Option MVal
  type : String
  score : Option MVal
  title : MVal
deriving DecidableEq, Repr

/-- The dictionary returned by the plan-generation entry points. -/
structure PlanResult where
  response : String
  sources : List SourceRec
  stats : CalorieCalculator.AllStats
  follow_up_questions : List String
deriving DecidableEq, Repr

namespace FitnessRAGChain

open FitnessRetriever

/-- FitnessRAGChain._format_documents: number the documents from 1, print
    relevance (two decimals when it is a number, str(value) otherwise,
    default string when the key is absent), and join with separators. -/
def format_documents (documents : List Document) : String :=
  if documents.isEmpty then "No relevant documents found."
  else
    let formatted := documents.enum.map (fun e =>
      let i := e.1 + 1
      let doc := e.2
      let score_str :=
        match dictGet doc.metadata "score" with
        | some (.q v) => qToFixed 2 v
        | some (.s s) => s
        | some .null => "None"
        | none => "N/A"
      "[Source " ++ toString i ++ ", Relevance: " ++ score_str ++ "]\n"
        ++ doc.page_content)
    String.intercalate "\n\n---\n\n" formatted

/-- FitnessRAGChain._format_progress: last five weights, completion rate
    and adherence when truthy (Python treats 0.0 as falsy), else a fixed
    no-data sentence. -/
def format_progress (pd : ProgressData) : String :=
  let parts : List String :=
    (if !pd.weight_history.isEmpty then
       let weights := pd.weight_history.drop (pd.weight_history.length - 5)
       ["Recent weights: " ++
         String.intercalate ", " (weights.map (fun w => qToFixed 1 w ++ "kg"))]
     else []) ++
    (match pd.workout_completion with
     | some rate =>
         if rate ≠ 0 then
           ["Workout completion rate: " ++ qToFixed 1 rate ++ "%"]
         else []
     | none => []) ++
    (match pd.calorie_adherence with
     | some adherence =>
         if adherence ≠ 0 then
           ["Calorie adherence: " ++ qToFixed 1 adherence ++ "%"]
         else []
     | none => [])
  if !parts.isEmpty then String.intercalate "\n" parts
  else "No progress data available."

/-- FitnessRAGChain._extract_sources: one record per retrieved workout
    document, then one per diet document. -/
def extract_sources (context : CombinedContext) : List SourceRec :=
  context.workouts.map (fun doc =>
    { id := dictGet doc.metadata "id"
      type := "workout"
      score := dictGet doc.metadata "score"
      title := (dictGet doc.metadata "title").getD (MVal.s "Workout Routine") }) ++
  context.diets.map (fun doc =>
    { id := dictGet doc.metadata "id"
      type := "diet"
      score := dictGet doc.metadata "score"
      title := (dictGet doc.metadata "title").getD (MVal.s "Diet Plan") })

/-- FitnessRAGChain._generate_follow_ups: the deterministic rule list,
    truncated to the first three questions. -/
def generate_follow_ups (p : Profile) (plan_type : String) : List String :=
  let questions : List String :=
    (if !optTruthy p.medical_conditions then
       ["Do you have any medical conditions or injuries I should consider?"]
     else []) ++
    (if !optTruthy p.allergies then
       ["Do you have any food allergies or intolerances?"]
     else []) ++
    (if plan_type = "workout" ∨ plan_type = "both" then
       ["Do you have access to specific gym equipment?",
        "How much time can you dedicate to each workout session?"]
     else []) ++
    (if plan_type = "diet" ∨ plan_type = "both" then
       ["Do you prefer meal prepping or cooking fresh daily?",
        "Are there any specific foods you dislike?"]
     else [])
  questions.take 3

/-- FitnessRAGChain._generate_fallback_response: the deterministic
    markdown template embedding the stats and the formatted contexts,
    plus extracted sources and three fixed follow-up questions. -/
def generate_fallback_response (p : Profile) (stats : CalorieCalculator.AllStats)
    (workout_context diet_context : String) (context : CombinedContext) :
    PlanResult :=
  let response :=
    "\n# Personalized Fitness & Diet Plan for " ++ (p.name.getD "User") ++
    "\n\n## Your Stats\n" ++
    "- **BMI:** " ++ qToFixed 1 stats.bmi ++ " (" ++ stats.bmi_category ++ ")\n" ++
    "- **Daily Calories:** " ++ toString stats.daily_calories ++ " kcal\n" ++
    "- **Protein:** " ++ toString stats.protein_g ++ "g | **Carbs:** " ++
    toString stats.carbs_g ++ "g | **Fats:** " ++ toString stats.fats_g ++ "g\n" ++
    "\n## Workout Plan\n" ++ workout_context ++ "\n" ++
    "\n## Diet Plan\n" ++ diet_context ++ "\n" ++
    "\n---\n" ++
    "*Note: This is a basic plan generated from our knowledge base. " ++
    "For more personalized AI-generated plans, please configure the Google API key.*\n"
  { response := response
    sources := extract_sources context
    stats := stats
    follow_up_questions :=
      ["Do you have any specific exercises you'd like to include?",
       "Are there any foods you particularly enjoy?",
       "What time do you prefer to workout?"] }

/-- The prompt-input dictionary assembled by generate_plan. -/
structure PromptInputs where
  user_name : String
  age : ℤ
  gender : String
  height_cm : ℚ
  weight_kg : ℚ
  bmi : ℚ
  fitness_goal : String
  activity_level : String
  experience_level : Option String
  workout_location : Option String
  workout_days : ℤ
  dietary_preference : Option String
  medical_conditions : String
  allergies : String
  daily_calories : ℤ
  protein_g : ℤ
  carbs_g : ℤ
  fats_g : ℤ
  progress_context : String
  workout_context : String
  diet_context : String
  user_query : String
deriving DecidableEq, Repr

/-- FitnessRAGChain.generate_plan. The generation backend is modelled as
    an optional function (None when no backend is configured, as
    is_available reports); an invocation that raises is an `Except.error`.
    The result is `none` exactly when calculate_all raises (see the
    unguarded enum constructor there); generation errors never surface. -/
def generate_plan (llm : Option (PromptInputs → Except String String))
    (gw : Gateway) (p : Profile) (user_query : String)
    (plan_type : String := "both") (progress_data : Option ProgressData := none) :
    Option PlanResult :=
  match CalorieCalculator.calculate_all p with
  | none => none
  | some stats =>
    let context := retrieve_combined_context gw user_query p 3
    let workout_context := format_documents context.workouts
    let diet_context := format_documents context.diets
    let progress_context :=
      match progress_data with
      | some pd => format_progress pd
      | none => "No previous progress data available."
    match llm with
    | none =>
        some (generate_fallback_response p stats workout_context diet_context context)
    | some invoke =>
        let prompt_inputs : PromptInputs :=
          { user_name := p.name.getD "User"
            age := p.age
            gender := p.gender
            height_cm := p.height_cm
            weight_kg := p.weight_kg
            bmi := pyRound1 stats.bmi
            fitness_goal := p.fitness_goal
            activity_level := p.activity_level
            experience_level := p.experience_level
            workout_location := p.workout_location
            workout_days := p.workout_days_per_week
            dietary_preference := p.dietary_preference
            medical_conditions := p.medical_conditions.getD "None reported"
            allergies := p.allergies.getD "None reported"
            daily_calories := stats.daily_calories
            protein_g := stats.protein_g
            carbs_g := stats.carbs_g
            fats_g := stats.fats_g
            progress_context := progress_context
            workout_context := workout_context
            diet_context := diet_context
            user_query := user_query }
        match invoke prompt_inputs with
        | .error _ =>
            some (generate_fallback_response p stats workout_context diet_context context)
        | .ok response =>
            some { response := response
                   sources := extract_sources context
                   stats := stats
                   follow_up_questions := generate_follow_ups p plan_type }

end FitnessRAGChain

/-- One exercise entry of a knowledge-base JSON item; scalar JSON leaf
    values are embedded as strings (the code only interpolates them). -/
structure Exercise where
  name : Option String := none
  sets : Option String := none
  reps : Option String := none
deriving DecidableEq, Repr

/-- A food entry of a meal: either a plain string or a name/portion
    object, as the ingestion code distinguishes with isinstance. -/
inductive FoodItem where
  | str : String → FoodItem
  | obj : Option String → Option String → FoodItem
deriving DecidableEq, Repr

/-- One meal entry of a knowledge-base JSON item. -/
structure Meal where
  name : Option String := none
  items : List FoodItem := []
deriving DecidableEq, Repr

/-- A raw knowledge-base JSON item, with the keys the ingester reads. -/
structure RawItem where
  name : Option String := none
  title : Option String := none
  description : Option String := none
  level : Option String := none
  goal : Option String := none
  location : Option String := none
  duration : Option String := none
  calories : Option String := none
  itemType : Option String := none
  experience_level : Option String := none
  dietary_type : Option String := none
  preference : Option String := none
  exercises : List Exercise := []
  meals : List Meal := []
deriving DecidableEq, Repr

/-- The metadata dictionary attached to every ingested chunk. -/
structure ChunkMeta where
  source_file : String
  doc_type : String
  type : String
  title : String
  experience_level : String
  location : String
  dietary_type : String
  goal : String
  chunk_index : ℕ
  ingested_at : String
deriving DecidableEq, Repr

/-- One chunk as upserted into the vector store. -/
structure Chunk where
  id : String
  text : String
  metadata : ChunkMeta
deriving DecidableEq, Repr

namespace FitnessDataIngester

/-- FitnessDataIngester._generate_chunk_id: the hex digest of the string
    built from the (source, item index, chunk index) triple. The hash
    itself (MD5) is an injected pure function, as the text splitter is. -/
def generate_chunk_id (md5hex : String → String) (source : String)
    (item_idx chunk_idx : ℕ) : String :=
  md5hex (source ++ "_" ++ toString item_idx ++ "_" ++ toString chunk_idx)

/-- FitnessDataIngester._json_to_text: flatten a JSON item into a single
    markdown-ish text block. The doc_type parameter of the source method
    is never read by its body. -/
def json_to_text (item : RawItem) (doc_type : String) : String :=
  let header := "# " ++ ((item.name <|> item.title).getD "Item")
  let descPart : List String :=
    match item.description with
    | some d => if !d.isEmpty then ["\n" ++ d] else []
    | none => []
  let scalarPart : List String :=
    (List.zip ["Level", "Goal", "Location", "Duration", "Calories"]
      [item.level, item.goal, item.location, item.duration, item.calories]).foldr
      (fun kv acc =>
        match kv.2 with
        | some v => if !v.isEmpty then (kv.1 ++ ": " ++ v) :: acc else acc
        | none => acc) []
  let exercisePart : List String :=
    if !item.exercises.isEmpty then
      "\n## Exercises:" ::
        item.exercises.map (fun ex =>
          let base := "- " ++ (ex.name.getD "Exercise")
          let withSets :=
            match ex.sets with
            | some s => if !s.isEmpty then base ++ ": " ++ s ++ " sets" else base
            | none => base
          match ex.reps with
          | some r => if !r.isEmpty then withSets ++ " x " ++ r else withSets
          | none => withSets)
    else []
  let mealPart : List String :=
    if !item.meals.isEmpty then
      "\n## Meals:" ::
        (item.meals.map (fun meal =>
          ("\n### " ++ (meal.name.getD "Meal")) ::
            meal.items.map (fun food =>
              match food with
              | .obj n portion =>
                  "- " ++ (n.getD "Food") ++ ": " ++ (portion.getD "")
              | .str s => "- " ++ s))).flatten
    else []
  let parts := header :: (descPart ++ scalarPart ++ exercisePart ++ mealPart)
  String.intercalate "\n" parts

/-- FitnessDataIngester._chunk_json_item: split the flattened text with
    the injected splitter and attach ids and metadata; `now` is the
    ingestion timestamp the source takes from the clock. -/
def chunk_json_item (splitter : String → List String)
    (md5hex : String → String) (now : String) (item : RawItem)
    (source_file : String) (idx : ℕ) (doc_type : String) : List Chunk :=
  let text_content := json_to_text item doc_type
  let text_chunks := splitter text_content
  text_chunks.enum.map (fun e =>
    { id := generate_chunk_id md5hex source_file idx e.1
      text := e.2
      metadata :=
        { source_file := source_file
          doc_type := doc_type
          type := item.itemType.getD doc_type
          title := (item.name <|> item.title).getD (doc_type ++ "_" ++ toString idx)
          experience_level := (item.level <|> item.experience_level).getD "all"
          location := item.location.getD "both"
          dietary_type := (item.dietary_type <|> item.preference).getD "all"
          goal := item.goal.getD "general"
          chunk_index := e.1
          ingested_at := now } })

/-- The parsed shapes _process_json_file distinguishes: a JSON list, an
    object with an items key, or a single object. -/
inductive JsonData where
  | list : List RawItem → JsonData
  | withItems : List RawItem → JsonData
  | single : RawItem → JsonData
deriving DecidableEq, Repr

/-- FitnessDataIngester._process_json_file, after JSON parsing: enumerate
    the items and concatenate their chunks. -/
def process_json_file (splitter : String → List String)
    (md5hex : String → String) (now : String) (data : JsonData)
    (file_stem : String) (doc_type : String) : List Chunk :=
  match data with
  | .list items =>
      (items.enum.map (fun e =>
        chunk_json_item splitter md5hex now e.2 file_stem e.1 doc_type)).flatten
  | .withItems items =>
      (items.enum.map (fun e =>
        chunk_json_item splitter md5hex now e.2 file_stem e.1 doc_type)).flatten
  | .single item =>
      chunk_json_item splitter md5hex now item file_stem 0 doc_type

end FitnessDataIngester

/- ------------------------------------------------------------------ -/
/- Concrete fixtures used by the verification theorems.               -/
/- ------------------------------------------------------------------ -/

/-- A valid profile with known goal and activity strings. -/
def profLean : Profile :=
  { age := 25, gender := "male", height_cm := 175, weight_kg := 70,
    fitness_goal := "lean", activity_level := "moderately_active" }

/-- A profile valid in all numeric fields whose fitness_goal string is
    not a FitnessGoal value. -/
def profBadGoal : Profile :=
  { age := 25, gender := "male", height_cm := 175, weight_kg := 70,
    fitness_goal := "bulking", activity_level := "moderately_active" }

/-- A profile valid in all numeric fields whose activity_level string is
    not an ActivityLevel value. -/
def profBadActivity : Profile :=
  { age := 25, gender := "male", height_cm := 175, weight_kg := 70,
    fitness_goal := "lean", activity_level := "super_active" }

/-- Junk record used only as the default of Option.getD below; its
    daily_calories is far below the floor so it can never satisfy the
    floor property by accident. -/
def junkStats : CalorieCalculator.AllStats :=
  { bmi := 0, bmi_category := "", bmr := 0, tdee := 0, daily_calories := 0,
    protein_g := 0, carbs_g := 0, fats_g := 0, ideal_weight_min := 0,
    ideal_weight_max := 0, water_ml := 0, macro_pct_protein := 0,
    macro_pct_carbs := 0, macro_pct_fats := 0 }

/-- The stats calculate_all produces on profLean. -/
def statsLean : CalorieCalculator.AllStats :=
  (CalorieCalculator.calculate_all profLean).getD junkStats

/-- An available gateway whose every query returns zero matches. -/
def gwEmptyIndex : Gateway :=
  { pineconeAvailable := true, embeddingAvailable := true,
    query := fun _ _ _ _ => [] }

/-- A gateway whose vector index reports unavailable. -/
def gwDown : Gateway :=
  { pineconeAvailable := false, embeddingAvailable := true,
    query := fun _ _ _ _ => [] }

/-- An available gateway returning one fixed match for every query. -/
def gwOneResult : Gateway :=
  { pineconeAvailable := true, embeddingAvailable := true,
    query := fun _ _ _ _ =>
      [{ id := some "w1", score := some 0.9, text := some "Push day plan",
         metadata := [("type", MVal.s "workout")] }] }

/-- A profile with filterable retrieval fields set. -/
def profBeginnerHome : Profile :=
  { age := 30, gender := "female", height_cm := 165, weight_kg := 60,
    fitness_goal := "fat_loss", activity_level := "lightly_active",
    dietary_preference := some "indian_veg",
    experience_level := some "beginner",
    workout_location := some "home" }

/-- A profile with no filterable retrieval fields at all. -/
def profNoFilters : Profile :=
  { age := 40, gender := "male", height_cm := 180, weight_kg := 80,
    fitness_goal := "muscle_gain", activity_level := "very_active" }

/-- A profile whose only filterable workout field is location home. -/
def profHomeOnly : Profile :=
  { age := 40, gender := "male", height_cm := 180, weight_kg := 80,
    fitness_goal := "muscle_gain", activity_level := "very_active",
    workout_location := some "home" }

/-- A profile with both free-text health fields populated. -/
def profFullHealth : Profile :=
  { age := 30, gender := "female", height_cm := 165, weight_kg := 60,
    fitness_goal := "fat_loss", activity_level := "lightly_active",
    medical_conditions := some "asthma", allergies := some "peanuts" }

/-- A generation invoke that raises on every prompt. -/
def failingInvoke : FitnessRAGChain.PromptInputs → Except String String :=
  fun _ => Except.error "provider down"

/- ------------------------------------------------------------------ -/
/- Arithmetic and structural helper lemmas.                           -/
/- ------------------------------------------------------------------ -/

/-- The doc_type parameter of _json_to_text is never read by its body. -/
theorem json_to_text_doc_type_irrelevant (item : RawItem) (d d' : String) :
    FitnessDataIngester.json_to_text item d =
      FitnessDataIngester.json_to_text item d' := rfl

/-- Truncation toward zero agrees with the floor on nonnegative input. -/
theorem ratTrunc_eq_floor {q : ℚ} (h : 0 ≤ q) : ratTrunc q = ⌊q⌋ := by
  simp [ratTrunc, h]

/-- Multiplying the floored quotient back by a positive k stays within k
    below the dividend. -/
theorem mul_floor_div_bounds (x k : ℚ) (hk : 0 < k) :
    k * (⌊x / k⌋ : ℚ) ≤ x ∧ x - k < k * (⌊x / k⌋ : ℚ) := by
  constructor
  · have h1 : (⌊x / k⌋ : ℚ) ≤ x / k := Int.floor_le (x / k)
    have h2 : k * (⌊x / k⌋ : ℚ) ≤ k * (x / k) :=
      mul_le_mul_of_nonneg_left h1 (le_of_lt hk)
    have h3 : k * (x / k) = x := by field_simp
    linarith
  · have h1 : x / k < (⌊x / k⌋ : ℚ) + 1 := Int.lt_floor_add_one (x / k)
    have h2 : k * (x / k) < k * ((⌊x / k⌋ : ℚ) + 1) :=
      mul_lt_mul_of_pos_left h1 hk
    have h3 : k * (x / k) = x := by field_simp
    nlinarith

/-- The macro-sum bound for one fraction triple summing to one. -/
theorem macro_bound_aux (d : ℤ) (hd : 0 ≤ d) (a b c : ℚ)
    (ha : 0 ≤ a) (hb : 0 ≤ b) (hc : 0 ≤ c) (habc : a + b + c = 1) :
    ratTrunc ((d : ℚ) * a / 4) * 4 + ratTrunc ((d : ℚ) * b / 4) * 4 +
      ratTrunc ((d : ℚ) * c / 9) * 9 ≤ d ∧
    d - 17 < ratTrunc ((d : ℚ) * a / 4) * 4 + ratTrunc ((d : ℚ) * b / 4) * 4 +
      ratTrunc ((d : ℚ) * c / 9) * 9 := by
  have hdq : (0 : ℚ) ≤ (d : ℚ) := by exact_mod_cast hd
  have hpa : (0 : ℚ) ≤ (d : ℚ) * a / 4 := by positivity
  have hpb : (0 : ℚ) ≤ (d : ℚ) * b / 4 := by positivity
  have hpc : (0 : ℚ) ≤ (d : ℚ) * c / 9 := by positivity
  rw [ratTrunc_eq_floor hpa, ratTrunc_eq_floor hpb, ratTrunc_eq_floor hpc]
  have h4 : (0 : ℚ) < 4 := by norm_num
  have h9 : (0 : ℚ) < 9 := by norm_num
  have b1 := mul_floor_div_bounds ((d : ℚ) * a) 4 h4
  have b2 := mul_floor_div_bounds ((d : ℚ) * b) 4 h4
  have b3 := mul_floor_div_bounds ((d : ℚ) * c) 9 h9
  have hsum : (d : ℚ) * a + (d : ℚ) * b + (d : ℚ) * c = (d : ℚ) := by
    have : (d : ℚ) * a + (d : ℚ) * b + (d : ℚ) * c = (d : ℚ) * (a + b + c) := by
      ring
    rw [this, habc, mul_one]
  constructor
  · have hq : (⌊(d : ℚ) * a / 4⌋ * 4 + ⌊(d : ℚ) * b / 4⌋ * 4 +
        ⌊(d : ℚ) * c / 9⌋ * 9 : ℚ) ≤ (d : ℚ) := by
      nlinarith [b1.1, b2.1, b3.1]
    exact_mod_cast hq
  · have hq : ((d : ℚ) - 17 : ℚ) < (⌊(d : ℚ) * a / 4⌋ * 4 +
        ⌊(d : ℚ) * b / 4⌋ * 4 + ⌊(d : ℚ) * c / 9⌋ * 9 : ℚ) := by
      nlinarith [b1.2, b2.2, b3.2]
    exact_mod_cast hq

/- ------------------------------------------------------------------ -/
/- Claim theorems.                                                    -/
/- ------------------------------------------------------------------ -/

/-- C1: for every TDEE value and every fitness-goal string, known or
    unknown, calculate_daily_calories is at least 1200; and whenever
    calculate_all returns a result, its daily_calories field is at least
    1200. -/
theorem daily_calories_floor :
    (∀ (tdee : ℚ) (goal : String),
        1200 ≤ CalorieCalculator.calculate_daily_calories tdee goal) ∧
    (∀ (p : Profile) (r : CalorieCalculator.AllStats),
        CalorieCalculator.calculate_all p = some r → 1200 ≤ r.daily_calories) := by
  have h1 : ∀ (tdee : ℚ) (goal : String),
      1200 ≤ CalorieCalculator.calculate_daily_calories tdee goal := by
    intro tdee goal
    unfold CalorieCalculator.calculate_daily_calories
    exact le_max_right _ _
  refine ⟨h1, ?_⟩
  intro p r h
  simp only [CalorieCalculator.calculate_all] at h
  split at h
  · exact absurd h (by simp)
  · rw [Option.some.injEq] at h
    subst h
    exact h1 _ _

/-- C1 witness: the floor holds on a concrete valid profile. -/
theorem daily_calories_floor_witness :
    CalorieCalculator.calculate_all profLean = some statsLean ∧
    1200 ≤ statsLean.daily_calories :=
  ⟨rfl, daily_calories_floor.2 profLean statsLean rfl⟩

/-- C2 (code bug evidence): calculate_all raises (returns none in the
    embedding) on a profile whose numeric fields are valid but whose
    fitness_goal string is unknown, because the macro_percentages entries
    call the FitnessGoal constructor without a try/except; while an
    unknown activity_level string is silently defaulted to the 1.55
    multiplier, giving exactly the moderately_active result. -/
theorem calculate_all_unknown_goal_raises :
    CalorieCalculator.calculate_all profBadGoal = none ∧
    CalorieCalculator.calculate_all profBadActivity =
      CalorieCalculator.calculate_all profLean ∧
    (CalorieCalculator.calculate_all profBadActivity).isSome = true := by
  refine ⟨rfl, rfl, rfl⟩

/-- C6 counterexample: at the (admissible int) input daily_calories = -1
    the macro kcal sum is 0, which exceeds the claimed upper bound of
    daily_calories, because Python int() truncates toward zero rather
    than flooring on negative values. -/
theorem macros_sum_negative_cx :
    ¬ ((CalorieCalculator.calculate_macros (-1) "lean").protein_g * 4 +
        (CalorieCalculator.calculate_macros (-1) "lean").carbs_g * 4 +
        (CalorieCalculator.calculate_macros (-1) "lean").fats_g * 9 ≤ (-1 : ℤ)) := by
  intro h
  have e : (CalorieCalculator.calculate_macros (-1) "lean").protein_g * 4 +
      (CalorieCalculator.calculate_macros (-1) "lean").carbs_g * 4 +
      (CalorieCalculator.calculate_macros (-1) "lean").fats_g * 9 = (0 : ℤ) := by
    have c1 : (⌈-((3 : ℚ) / 40)⌉ : ℤ) = 0 := by
      rw [Int.ceil_eq_iff] <;> norm_num
    have c2 : (⌈-((1 : ℚ) / 10)⌉ : ℤ) = 0 := by
      rw [Int.ceil_eq_iff] <;> norm_num
    have c3 : (⌈-((1 : ℚ) / 30)⌉ : ℤ) = 0 := by
      rw [Int.ceil_eq_iff] <;> norm_num
    norm_num [CalorieCalculator.calculate_macros, FitnessGoal.ofString,
      CalorieCalculator.macroRatios, ratTrunc, c1, c2, c3]
  rw [e] at h
  omega

/-- C6 (amended to nonnegative daily_calories, which covers every value
    calculate_daily_calories can produce): the macro kcal sum at 4/4/9
    kcal per gram never exceeds daily_calories and falls short of it by
    less than 4+4+9 = 17 kcal, for every goal string. -/
theorem macros_sum_bounds (d : ℤ) (goal : String) (hd : 0 ≤ d) :
    (CalorieCalculator.calculate_macros d goal).protein_g * 4 +
      (CalorieCalculator.calculate_macros d goal).carbs_g * 4 +
      (CalorieCalculator.calculate_macros d goal).fats_g * 9 ≤ d ∧
    d - 17 < (CalorieCalculator.calculate_macros d goal).protein_g * 4 +
      (CalorieCalculator.calculate_macros d goal).carbs_g * 4 +
      (CalorieCalculator.calculate_macros d goal).fats_g * 9 := by
  unfold CalorieCalculator.calculate_macros
  rcases hg : FitnessGoal.ofString goal with _ | g
  · simpa [hg, CalorieCalculator.macroRatios] using
      macro_bound_aux d hd 0.30 0.40 0.30 (by norm_num) (by norm_num)
        (by norm_num) (by norm_num)
  · cases g
    · simpa [hg, CalorieCalculator.macroRatios] using
        macro_bound_aux d hd 0.30 0.40 0.30 (by norm_num) (by norm_num)
          (by norm_num) (by norm_num)
    · simpa [hg, CalorieCalculator.macroRatios] using
        macro_bound_aux d hd 0.30 0.45 0.25 (by norm_num) (by norm_num)
          (by norm_num) (by norm_num)
    · simpa [hg, CalorieCalculator.macroRatios] using
        macro_bound_aux d hd 0.35 0.30 0.35 (by norm_num) (by norm_num)
          (by norm_num) (by norm_num)

namespace FitnessRetriever

/-- Helper: a workout retrieval never returns the empty list. -/
theorem retrieve_workout_context_ne_nil (gw : Gateway) (q : String)
    (p : Profile) (k : ℕ) : retrieve_workout_context gw q p k ≠ [] := by
  simp only [retrieve_workout_context]
  split
  · exact List.cons_ne_nil _ _
  · split
    · exact List.cons_ne_nil _ _
    · next hne =>
        intro hnil
        rw [hnil] at hne
        simp at hne

/-- Helper: a diet retrieval never returns the empty list. -/
theorem retrieve_diet_context_ne_nil (gw : Gateway) (q : String)
    (p : Profile) (k : ℕ) : retrieve_diet_context gw q p k ≠ [] := by
  simp only [retrieve_diet_context]
  split
  · exact List.cons_ne_nil _ _
  · split
    · exact List.cons_ne_nil _ _
    · next hne =>
        intro hnil
        rw [hnil] at hne
        simp at hne

/-- Helper: with unavailable gateways, workout retrieval is the static
    fallback list. -/
theorem retrieve_workout_context_unavailable (gw : Gateway) (q : String)
    (p : Profile) (k : ℕ) (h : is_available gw = false) :
    retrieve_workout_context gw q p k = fallback_workout_docs := by
  simp [retrieve_workout_context, h]

/-- Helper: with unavailable gateways, diet retrieval is the static
    fallback list. -/
theorem retrieve_diet_context_unavailable (gw : Gateway) (q : String)
    (p : Profile) (k : ℕ) (h : is_available gw = false) :
    retrieve_diet_context gw q p k = fallback_diet_docs := by
  simp [retrieve_diet_context, h]

/-- Helper: with available gateways and zero matches, workout retrieval
    substitutes the static fallback list. -/
theorem retrieve_workout_context_empty (gw : Gateway) (q : String)
    (p : Profile) (k : ℕ) (h : is_available gw = true)
    (he : gw.query (enhance_query q p .workout) k "workouts"
            (build_workout_filter p) = []) :
    retrieve_workout_context gw q p k = fallback_workout_docs := by
  simp [retrieve_workout_context, h, he, results_to_documents]

/-- Helper: with available gateways and zero matches, diet retrieval
    substitutes the static fallback list. -/
theorem retrieve_diet_context_empty (gw : Gateway) (q : String)
    (p : Profile) (k : ℕ) (h : is_available gw = true)
    (he : gw.query (enhance_query q p .diet) k "diets"
            (build_diet_filter p) = []) :
    retrieve_diet_context gw q p k = fallback_diet_docs := by
  simp [retrieve_diet_context, h, he, results_to_documents]

/-- Helper: with available gateways and at least one match, workout
    retrieval returns exactly the converted results. -/
theorem retrieve_workout_context_nonempty (gw : Gateway) (q : String)
    (p : Profile) (k : ℕ) (h : is_available gw = true)
    (hne : gw.query (enhance_query q p .workout) k "workouts"
             (build_workout_filter p) ≠ []) :
    retrieve_workout_context gw q p k =
      results_to_documents
        (gw.query (enhance_query q p .workout) k "workouts"
          (build_workout_filter p)) := by
  simp only [retrieve_workout_context, h]
  simp only [Bool.not_true, if_neg (by simp : ¬ (false = true))]
  rw [if_neg]
  simp [results_to_documents, hne]

/-- Helper: with available gateways and at least one match, diet
    retrieval returns exactly the converted results. -/
theorem retrieve_diet_context_nonempty (gw : Gateway) (q : String)
    (p : Profile) (k : ℕ) (h : is_available gw = true)
    (hne : gw.query (enhance_query q p .diet) k "diets"
             (build_diet_filter p) ≠ []) :
    retrieve_diet_context gw q p k =
      results_to_documents
        (gw.query (enhance_query q p .diet) k "diets"
          (build_diet_filter p)) := by
  simp only [retrieve_diet_context, h]
  simp only [Bool.not_true, if_neg (by simp : ¬ (false = true))]
  rw [if_neg]
  simp [results_to_documents, hne]

end FitnessRetriever

/-- Helper: a nonempty string fails Python's falsiness test. -/
theorem not_isEmpty_of_ne (s : String) (h : s ≠ "") : (!s.isEmpty) = true := by
  rw [Bool.not_eq_true']
  rw [← Bool.not_eq_true]
  simpa [String.isEmpty_iff] using h

/-- C3 counterexample: with available gateways whose filtered query
    returns zero matches, the retriever does not hand the empty list back
    to the caller; it already substitutes the static fallback documents
    itself. -/
theorem retriever_returns_empty_as_is_cx :
    FitnessRetriever.retrieve_workout_context gwEmptyIndex "strength plan"
        profBeginnerHome 5 ≠ [] ∧
    FitnessRetriever.retrieve_workout_context gwEmptyIndex "strength plan"
        profBeginnerHome 5 = FitnessRetriever.fallback_workout_docs ∧
    FitnessRetriever.retrieve_diet_context gwEmptyIndex "meal plan"
        profBeginnerHome 5 = FitnessRetriever.fallback_diet_docs := by
  refine ⟨?_, rfl, rfl⟩
  exact FitnessRetriever.retrieve_workout_context_ne_nil _ _ _ _

/-- C3 (amended): when the gateways are available, a query with zero
    matches makes the retriever itself substitute the static fallback
    documents, and a query with matches is returned converted, as-is. -/
theorem retriever_empty_result_behaviour (gw : Gateway) (q : String)
    (p : Profile) (k : ℕ) (h : FitnessRetriever.is_available gw = true) :
    (gw.query (FitnessRetriever.enhance_query q p .workout) k "workouts"
        (FitnessRetriever.build_workout_filter p) = [] →
      FitnessRetriever.retrieve_workout_context gw q p k =
        FitnessRetriever.fallback_workout_docs) ∧
    (gw.query (FitnessRetriever.enhance_query q p .workout) k "workouts"
        (FitnessRetriever.build_workout_filter p) ≠ [] →
      FitnessRetriever.retrieve_workout_context gw q p k =
        FitnessRetriever.results_to_documents
          (gw.query (FitnessRetriever.enhance_query q p .workout) k "workouts"
            (FitnessRetriever.build_workout_filter p))) ∧
    (gw.query (FitnessRetriever.enhance_query q p .diet) k "diets"
        (FitnessRetriever.build_diet_filter p) = [] →
      FitnessRetriever.retrieve_diet_context gw q p k =
        FitnessRetriever.fallback_diet_docs) ∧
    (gw.query (FitnessRetriever.enhance_query q p .diet) k "diets"
        (FitnessRetriever.build_diet_filter p) ≠ [] →
      FitnessRetriever.retrieve_diet_context gw q p k =
        FitnessRetriever.results_to_documents
          (gw.query (FitnessRetriever.enhance_query q p .diet) k "diets"
            (FitnessRetriever.build_diet_filter p))) :=
  ⟨fun he => FitnessRetriever.retrieve_workout_context_empty gw q p k h he,
   fun hne => FitnessRetriever.retrieve_workout_context_nonempty gw q p k h hne,
   fun he => FitnessRetriever.retrieve_diet_context_empty gw q p k h he,
   fun hne => FitnessRetriever.retrieve_diet_context_nonempty gw q p k h hne⟩

/-- C3 witness: the amended behaviour at a zero-match gateway and at a
    one-match gateway. -/
theorem retriever_empty_result_behaviour_witness :
    FitnessRetriever.retrieve_workout_context gwEmptyIndex "q" profBeginnerHome 5 =
      FitnessRetriever.fallback_workout_docs ∧
    FitnessRetriever.retrieve_workout_context gwOneResult "q" profBeginnerHome 5 =
      FitnessRetriever.results_to_documents
        (gwOneResult.query
          (FitnessRetriever.enhance_query "q" profBeginnerHome .workout) 5
          "workouts" (FitnessRetriever.build_workout_filter profBeginnerHome)) :=
  ⟨(retriever_empty_result_behaviour gwEmptyIndex "q" profBeginnerHome 5 rfl).1 rfl,
   (retriever_empty_result_behaviour gwOneResult "q" profBeginnerHome 5 rfl).2.1
     (List.cons_ne_nil _ _)⟩

/-- C5: whenever one of the gateways reports unavailable, both retrieval
    entry points return exactly their single static fallback document,
    tagged score 0.5 and source fallback, for every query and profile. -/
theorem retriever_unavailable_static_fallback (gw : Gateway) (q : String)
    (p : Profile) (k : ℕ) (h : FitnessRetriever.is_available gw = false) :
    FitnessRetriever.retrieve_workout_context gw q p k =
      FitnessRetriever.fallback_workout_docs ∧
    FitnessRetriever.retrieve_diet_context gw q p k =
      FitnessRetriever.fallback_diet_docs ∧
    FitnessRetriever.fallback_workout_docs.length = 1 ∧
    FitnessRetriever.fallback_diet_docs.length = 1 ∧
    FitnessRetriever.fallback_workout_docs.map
        (fun d => dictGet d.metadata "source") = [some (MVal.s "fallback")] ∧
    FitnessRetriever.fallback_workout_docs.map
        (fun d => dictGet d.metadata "score") = [some (MVal.q 0.5)] ∧
    FitnessRetriever.fallback_diet_docs.map
        (fun d => dictGet d.metadata "source") = [some (MVal.s "fallback")] ∧
    FitnessRetriever.fallback_diet_docs.map
        (fun d => dictGet d.metadata "score") = [some (MVal.q 0.5)] :=
  ⟨FitnessRetriever.retrieve_workout_context_unavailable gw q p k h,
   FitnessRetriever.retrieve_diet_context_unavailable gw q p k h,
   rfl, rfl, rfl, rfl, rfl, rfl⟩

/-- C5 witness: the fallback documents on a concrete down gateway. -/
theorem retriever_unavailable_static_fallback_witness :
    FitnessRetriever.retrieve_workout_context gwDown "anything" profLean 5 =
      FitnessRetriever.fallback_workout_docs ∧
    FitnessRetriever.retrieve_diet_context gwDown "anything" profLean 5 =
      FitnessRetriever.fallback_diet_docs :=
  ⟨(retriever_unavailable_static_fallback gwDown "anything" profLean 5 rfl).1,
   (retriever_unavailable_static_fallback gwDown "anything" profLean 5 rfl).2.1⟩

/-- C10: for every gateway, query and profile, both retrieval entry
    points return a non-empty document list (so the combined context the
    RAG Chain sees is never empty); in particular an available gateway
    with zero matches yields the static fallback documents. -/
theorem retrieved_context_never_empty (gw : Gateway) (q : String)
    (p : Profile) (k : ℕ) :
    FitnessRetriever.retrieve_workout_context gw q p k ≠ [] ∧
    FitnessRetriever.retrieve_diet_context gw q p k ≠ [] ∧
    (FitnessRetriever.is_available gw = true →
      gw.query (FitnessRetriever.enhance_query q p .workout) k "workouts"
          (FitnessRetriever.build_workout_filter p) = [] →
      FitnessRetriever.retrieve_workout_context gw q p k =
        FitnessRetriever.fallback_workout_docs) ∧
    (FitnessRetriever.is_available gw = true →
      gw.query (FitnessRetriever.enhance_query q p .diet) k "diets"
          (FitnessRetriever.build_diet_filter p) = [] →
      FitnessRetriever.retrieve_diet_context gw q p k =
        FitnessRetriever.fallback_diet_docs) ∧
    (FitnessRetriever.retrieve_combined_context gw q p k).workouts ≠ [] ∧
    (FitnessRetriever.retrieve_combined_context gw q p k).diets ≠ [] :=
  ⟨FitnessRetriever.retrieve_workout_context_ne_nil gw q p k,
   FitnessRetriever.retrieve_diet_context_ne_nil gw q p k,
   fun h he => FitnessRetriever.retrieve_workout_context_empty gw q p k h he,
   fun h he => FitnessRetriever.retrieve_diet_context_empty gw q p k h he,
   FitnessRetriever.retrieve_workout_context_ne_nil gw q p k,
   FitnessRetriever.retrieve_diet_context_ne_nil gw q p k⟩

/-- C10 witness: non-emptiness and the fallback substitution on the
    concrete zero-match gateway. -/
theorem retrieved_context_never_empty_witness :
    FitnessRetriever.retrieve_workout_context gwEmptyIndex "w" profLean 3 ≠ [] ∧
    FitnessRetriever.retrieve_workout_context gwEmptyIndex "w" profLean 3 =
      FitnessRetriever.fallback_workout_docs :=
  ⟨(retrieved_context_never_empty gwEmptyIndex "w" profLean 3).1,
   (retrieved_context_never_empty gwEmptyIndex "w" profLean 3).2.2.1 rfl rfl⟩

/-- C8: the workout filter carries an exact-match experience_level entry
    whenever that field is truthy; carries no location entry when
    workout_location is both or absent; is exactly the location-home
    filter when home is the only filterable field; and is absent entirely
    (None, unconstrained search) when no filterable field is set. -/
theorem workout_filter_shape :
    (∀ (p : Profile) (s : String), p.experience_level = some s → s ≠ "" →
      ∃ f, FitnessRetriever.build_workout_filter p = some f ∧
        ("experience_level", s) ∈ f) ∧
    (∀ (p : Profile),
      (p.workout_location = some "both" ∨ p.workout_location = none) →
      ∀ f, FitnessRetriever.build_workout_filter p = some f →
        ∀ v, ("location", v) ∉ f) ∧
    (∀ (p : Profile), p.workout_location = some "home" →
      (p.experience_level = none ∨ p.experience_level = some "") →
      FitnessRetriever.build_workout_filter p = some [("location", "home")]) ∧
    (∀ (p : Profile),
      (p.experience_level = none ∨ p.experience_level = some "") →
      (p.workout_location = none ∨ p.workout_location = some "both" ∨
        p.workout_location = some "") →
      FitnessRetriever.build_workout_filter p = none) := by
  refine ⟨?_, ?_, ?_, ?_⟩
  · intro p s hs hne
    have ht : s.isEmpty = false := by
      rw [← Bool.not_eq_true]
      simpa [String.isEmpty_iff] using hne
    rcases hl : p.workout_location with _ | loc
    · exact ⟨[("experience_level", s)],
        by simp [FitnessRetriever.build_workout_filter, hs, hl, ht],
        by simp⟩
    · by_cases hb : loc = "both"
      · exact ⟨[("experience_level", s)],
          by simp [FitnessRetriever.build_workout_filter, hs, hl, ht, hb],
          by simp⟩
      · cases hemp : loc.isEmpty with
        | true =>
            exact ⟨[("experience_level", s)],
              by simp [FitnessRetriever.build_workout_filter, hs, hl, ht,
                hemp, hb],
              by simp⟩
        | false =>
            exact ⟨[("experience_level", s), ("location", loc)],
              by simp [FitnessRetriever.build_workout_filter, hs, hl, ht,
                hemp, hb],
              by simp⟩
  · intro p hl f hf v hmem
    rcases he : p.experience_level with _ | s
    · rcases hl with hl | hl <;>
        simp [FitnessRetriever.build_workout_filter, he, hl] at hf
    · cases hs : s.isEmpty with
      | true =>
          rcases hl with hl | hl <;>
            simp [FitnessRetriever.build_workout_filter, he, hl, hs] at hf
      | false =>
          rcases hl with hl | hl <;>
            simp [FitnessRetriever.build_workout_filter, he, hl, hs] at hf <;>
            subst hf <;> simp at hmem
  · intro p hl he
    have hb : ("home" : String) ≠ "both" := by decide
    have h1 : ("" : String).isEmpty = true := rfl
    have h2 : ("home" : String).isEmpty = false := rfl
    rcases he with he | he <;>
      simp [FitnessRetriever.build_workout_filter, hl, he, hb, h1, h2]
  · intro p he hl
    have h1 : ("" : String).isEmpty = true := rfl
    rcases he with he | he <;> rcases hl with hl | hl | hl <;>
      simp [FitnessRetriever.build_workout_filter, he, hl, h1]

/-- C8 witness: the filter shapes on concrete profiles. -/
theorem workout_filter_shape_witness :
    (∃ f, FitnessRetriever.build_workout_filter profBeginnerHome = some f ∧
      ("experience_level", "beginner") ∈ f) ∧
    FitnessRetriever.build_workout_filter profHomeOnly =
      some [("location", "home")] ∧
    FitnessRetriever.build_workout_filter profNoFilters = none :=
  ⟨workout_filter_shape.1 profBeginnerHome "beginner" rfl (by decide),
   workout_filter_shape.2.2.1 profHomeOnly rfl (Or.inl rfl),
   workout_filter_shape.2.2.2 profNoFilters (Or.inl rfl) (Or.inl rfl)⟩

/-- C4 counterexample: on a profile with medical conditions and allergies
    populated and plan_type both, the generator returns three questions,
    not the claimed two — equipment and session time are separate
    questions in the rule list. -/
theorem follow_ups_exactly_two_cx :
    (FitnessRAGChain.generate_follow_ups profFullHealth "both").length ≠ 2 := by
  decide

/-- C4 (amended): with medical conditions and allergies known and
    plan_type both, the generator returns exactly the three questions
    equipment, session time and meal-prep (the dislikes question falls to
    the 3-cap), in the fixed medical-allergy-workout-diet priority order;
    and no profile and plan_type ever gets more than 3 questions. -/
theorem follow_ups_capped_three :
    (∀ (p : Profile), optTruthy p.medical_conditions = true →
      optTruthy p.allergies = true →
      FitnessRAGChain.generate_follow_ups p "both" =
        ["Do you have access to specific gym equipment?",
         "How much time can you dedicate to each workout session?",
         "Do you prefer meal prepping or cooking fresh daily?"]) ∧
    (∀ (p : Profile) (plan_type : String),
      (FitnessRAGChain.generate_follow_ups p plan_type).length ≤ 3) := by
  constructor
  · intro p hm ha
    simp [FitnessRAGChain.generate_follow_ups, hm, ha]
  · intro p plan_type
    simp only [FitnessRAGChain.generate_follow_ups]
    exact List.length_take_le 3 _

/-- C4 witness: the exactly-three result at a fully populated profile,
    and the cap at a profile with no health fields recorded (where six
    rules fire before truncation). -/
theorem follow_ups_capped_three_witness :
    FitnessRAGChain.generate_follow_ups profFullHealth "both" =
      ["Do you have access to specific gym equipment?",
       "How much time can you dedicate to each workout session?",
       "Do you prefer meal prepping or cooking fresh daily?"] ∧
    (FitnessRAGChain.generate_follow_ups profNoFilters "both").length ≤ 3 :=
  ⟨follow_ups_capped_three.1 profFullHealth (by decide) (by decide),
   follow_ups_capped_three.2 profNoFilters "both"⟩

/-- C7: if the configured generation invocation raises (here: raises on
    the prompt it is given, with any message), generate_plan returns
    exactly what it returns with no backend configured — the deterministic
    fallback template built from the computed stats and the retrieved
    context — and no error is propagated. -/
theorem generation_error_degrades
    (invoke : FitnessRAGChain.PromptInputs → Except String String)
    (errOf : FitnessRAGChain.PromptInputs → String)
    (gw : Gateway) (p : Profile) (uq pt : String) (pd : Option ProgressData)
    (hfail : ∀ x, invoke x = Except.error (errOf x)) :
    FitnessRAGChain.generate_plan (some invoke) gw p uq pt pd =
      FitnessRAGChain.generate_plan none gw p uq pt pd ∧
    (∀ stats, CalorieCalculator.calculate_all p = some stats →
      FitnessRAGChain.generate_plan (some invoke) gw p uq pt pd =
        some (FitnessRAGChain.generate_fallback_response p stats
          (FitnessRAGChain.format_documents
            (FitnessRetriever.retrieve_combined_context gw uq p 3).workouts)
          (FitnessRAGChain.format_documents
            (FitnessRetriever.retrieve_combined_context gw uq p 3).diets)
          (FitnessRetriever.retrieve_combined_context gw uq p 3))) := by
  constructor
  · cases hc : CalorieCalculator.calculate_all p with
    | none => simp only [FitnessRAGChain.generate_plan, hc]
    | some stats => simp only [FitnessRAGChain.generate_plan, hc, hfail]
  · intro stats hc
    simp only [FitnessRAGChain.generate_plan, hc, hfail]

/-- C7 witness: a concrete always-raising invoke degrades to the
    no-backend result on a concrete profile. -/
theorem generation_error_degrades_witness :
    FitnessRAGChain.generate_plan (some failingInvoke) gwEmptyIndex profLean
        "plan please" "both" none =
      FitnessRAGChain.generate_plan none gwEmptyIndex profLean
        "plan please" "both" none :=
  (generation_error_degrades failingInvoke (fun _ => "provider down")
    gwEmptyIndex profLean "plan please" "both" none (fun _ => rfl)).1

/-- Helper: the ids of the chunks of one item are exactly the stable hash
    applied to consecutive chunk indices — a pure function of the
    (source_file, item_index, chunk_index) triples. -/
theorem chunk_json_item_map_id (splitter : String → List String)
    (md5hex : String → String) (now : String) (item : RawItem)
    (sf : String) (idx : ℕ) (dt : String) :
    (FitnessDataIngester.chunk_json_item splitter md5hex now item sf idx dt).map
        Chunk.id =
      (List.range (splitter (FitnessDataIngester.json_to_text item dt)).length).map
        (FitnessDataIngester.generate_chunk_id md5hex sf idx) := by
  simp only [FitnessDataIngester.chunk_json_item, List.map_map]
  rw [← List.enum_map_fst
    (splitter (FitnessDataIngester.json_to_text item dt)), List.map_map]
  rfl

/-- C9: chunk ids do not depend on the ingestion timestamp or the
    doc_type tag — re-ingesting the same item (and, file-level, the same
    parsed source file) at another time yields the identical id list, and
    that list is the stable hash of (source_file, item_index, chunk_index)
    for consecutive chunk indices. -/
theorem chunk_ids_idempotent (splitter : String → List String)
    (md5hex : String → String) (now now' : String) (item : RawItem)
    (sf : String) (idx : ℕ) (dt dt' : String) :
    (FitnessDataIngester.chunk_json_item splitter md5hex now item sf idx dt).map
        Chunk.id =
      (FitnessDataIngester.chunk_json_item splitter md5hex now' item sf idx dt').map
        Chunk.id ∧
    (FitnessDataIngester.chunk_json_item splitter md5hex now item sf idx dt).map
        Chunk.id =
      (List.range (splitter (FitnessDataIngester.json_to_text item dt)).length).map
        (FitnessDataIngester.generate_chunk_id md5hex sf idx) ∧
    (∀ (data : FitnessDataIngester.JsonData) (stem : String),
      (FitnessDataIngester.process_json_file splitter md5hex now data stem dt).map
          Chunk.id =
        (FitnessDataIngester.process_json_file splitter md5hex now' data stem dt).map
          Chunk.id) := by
  refine ⟨?_, chunk_json_item_map_id splitter md5hex now item sf idx dt, ?_⟩
  · rw [chunk_json_item_map_id, chunk_json_item_map_id]
    rfl
  · intro data stem
    cases data with
    | single it =>
        simp only [FitnessDataIngester.process_json_file]
        rw [chunk_json_item_map_id, chunk_json_item_map_id]
    | list items =>
        simp only [FitnessDataIngester.process_json_file]
        rw [List.map_flatten, List.map_flatten, List.map_map, List.map_map]
        exact congrArg List.flatten (List.map_congr_left (fun e _ => by
          simp only [Function.comp_apply]
          rw [chunk_json_item_map_id, chunk_json_item_map_id]))
    | withItems items =>
        simp only [FitnessDataIngester.process_json_file]
        rw [List.map_flatten, List.map_flatten, List.map_map, List.map_map]
        exact congrArg List.flatten (List.map_congr_left (fun e _ => by
          simp only [Function.comp_apply]
          rw [chunk_json_item_map_id, chunk_json_item_map_id]))

/-- C6 witness: the bounds hold at daily_calories 2000 with the lean
    ratios (grams 150/200/66, kcal sum 1994). -/
theorem macros_sum_bounds_witness :
    (CalorieCalculator.calculate_macros 2000 "lean").protein_g * 4 +
      (CalorieCalculator.calculate_macros 2000 "lean").carbs_g * 4 +
      (CalorieCalculator.calculate_macros 2000 "lean").fats_g * 9 ≤ 2000 ∧
    (2000 : ℤ) - 17 <
      (CalorieCalculator.calculate_macros 2000 "lean").protein_g * 4 +
      (CalorieCalculator.calculate_macros 2000 "lean").carbs_g * 4 +
      (CalorieCalculator.calculate_macros 2000 "lean").fats_g * 9 :=
  macros_sum_bounds 2000 "lean" (by decide)

